import Mathlib

/-!
Verification of the transform-validate-load core of a taxi-trip ETL pipeline
(source files `src/transform.py` and `src/load.py`).

Modelling conventions:
* A pandas DataFrame is a `List` of records; a cell that can be missing
  (NaN/NaT) is an `Option`.
* Monetary and decimal cells (float64 in the source) are modelled as
  rationals; timestamp cells are integers counting seconds since the epoch.
  String parsing done by `pd.to_datetime` is outside the model: a `some t`
  stands for an already-parsed timestamp, `none` for NaT (an unparsable
  string raises in the source, which is fatal for the run).
* A pandas comparison involving a missing value is false, which is how the
  source's boolean-mask filters treat NaN/NaT rows; the embedding's
  option-comparison helpers reproduce that.
-/

namespace TaxiETL

/-- A value held by a pandas object (mixed-type) column: the
`store_and_fwd_flag` column normally holds strings, but `DataFrame.fillna(0)`
puts the number `0` into object columns as well. -/
inductive Value where
  | num (q : ℚ)
  | str (s : String)
  deriving DecidableEq, Repr

/-- A raw trip row as read from the trip CSV, after the two datetime columns
have been parsed by `pd.to_datetime` (transform.py lines 18-19). Field names
are the source's column names. -/
structure RawTrip where
  VendorID : Option ℚ
  tpep_pickup_datetime : Option Int
  tpep_dropoff_datetime : Option Int
  passenger_count : Option ℚ
  trip_distance : Option ℚ
  RatecodeID : Option ℚ
  store_and_fwd_flag : Option Value
  PULocationID : Option ℚ
  DOLocationID : Option ℚ
  payment_type : Option ℚ
  fare_amount : Option ℚ
  extra : Option ℚ
  mta_tax : Option ℚ
  tip_amount : Option ℚ
  tolls_amount : Option ℚ
  improvement_surcharge : Option ℚ
  total_amount : Option ℚ
  congestion_surcharge : Option ℚ
  deriving DecidableEq, Repr, Inhabited

/-- A transformed trip row: the raw columns plus the four derived columns
added by `transform_trip_data` (transform.py lines 30-40). `pickup_date` is
a calendar date modelled as whole days since the epoch. -/
structure TranTrip where
  VendorID : Option ℚ
  tpep_pickup_datetime : Option Int
  tpep_dropoff_datetime : Option Int
  passenger_count : Option ℚ
  trip_distance : Option ℚ
  RatecodeID : Option ℚ
  store_and_fwd_flag : Option Value
  PULocationID : Option ℚ
  DOLocationID : Option ℚ
  payment_type : Option ℚ
  fare_amount : Option ℚ
  extra : Option ℚ
  mta_tax : Option ℚ
  tip_amount : Option ℚ
  tolls_amount : Option ℚ
  improvement_surcharge : Option ℚ
  total_amount : Option ℚ
  congestion_surcharge : Option ℚ
  trip_duration_minutes : Option Int
  cost_per_mile : Option ℚ
  pickup_hour : Option Int
  pickup_date : Option Int
  deriving DecidableEq, Repr, Inhabited

/-- Pandas `<=` on two nullable timestamps: any comparison with NaT is false
(so the mask `df[pickup <= dropoff]` drops rows with a missing timestamp). -/
def optLe : Option Int → Option Int → Bool
  | some a, some b => a ≤ b
  | _, _ => false

/-- Pandas `> 0` on a nullable numeric cell: false for NaN. -/
def optPos : Option ℚ → Bool
  | some q => 0 < q
  | none => false

/-- Round-half-to-even on a rational, the rounding used by numpy/pandas
`Series.round`: take the floor when the fractional part is below one half,
the ceiling when above, and the even neighbour on an exact half. -/
def roundHalfEven (q : ℚ) : ℤ :=
  if q - ⌊q⌋ < 1 / 2 then ⌊q⌋
  else if 1 / 2 < q - ⌊q⌋ then ⌊q⌋ + 1
  else if ⌊q⌋ % 2 = 0 then ⌊q⌋ else ⌊q⌋ + 1

/-- Pandas `Series.round(2)`: round to two decimal digits. -/
def round2 (q : ℚ) : ℚ := (roundHalfEven (q * 100) : ℚ) / 100

/-- Trip duration in whole minutes, transform.py lines 30-33:
`(dropoff - pickup).dt.total_seconds() / 60` cast with `astype(int)`, which
truncates toward zero (`Int.tdiv`). -/
def durationMinutes (p d : Int) : Int := (d - p).tdiv 60

/-- Hour-of-day component of a timestamp (`Series.dt.hour`). -/
def hourOf (t : Int) : Int := t.fdiv 3600 % 24

/-- Calendar-date component of a timestamp (`Series.dt.date`), as whole days
since the epoch. -/
def dateOf (t : Int) : Int := t.fdiv 86400

/-- Lift a binary cell operation to nullable cells: a missing operand gives a
missing result, as in pandas column arithmetic. -/
def cellMap2 {α β γ : Type} (f : α → β → γ) : Option α → Option β → Option γ
  | some a, some b => some (f a b)
  | _, _ => none

/-- Column assignments of transform.py lines 30-40: add the four derived
columns to a row. -/
def addDerived (r : RawTrip) : TranTrip :=
  { VendorID := r.VendorID
    tpep_pickup_datetime := r.tpep_pickup_datetime
    tpep_dropoff_datetime := r.tpep_dropoff_datetime
    passenger_count := r.passenger_count
    trip_distance := r.trip_distance
    RatecodeID := r.RatecodeID
    store_and_fwd_flag := r.store_and_fwd_flag
    PULocationID := r.PULocationID
    DOLocationID := r.DOLocationID
    payment_type := r.payment_type
    fare_amount := r.fare_amount
    extra := r.extra
    mta_tax := r.mta_tax
    tip_amount := r.tip_amount
    tolls_amount := r.tolls_amount
    improvement_surcharge := r.improvement_surcharge
    total_amount := r.total_amount
    congestion_surcharge := r.congestion_surcharge
    trip_duration_minutes :=
      cellMap2 durationMinutes r.tpep_pickup_datetime r.tpep_dropoff_datetime
    cost_per_mile :=
      cellMap2 (fun f q => round2 (f / q)) r.fare_amount r.trip_distance
    pickup_hour := r.tpep_pickup_datetime.map hourOf
    pickup_date := r.tpep_pickup_datetime.map dateOf }

/-- Fill a nullable numeric cell with 0 (`fillna(0)`). -/
def fillQ (v : Option ℚ) : Option ℚ := some (v.getD 0)

/-- Fill a nullable integer-valued cell with 0 (`fillna(0)`). -/
def fillZ (v : Option Int) : Option Int := some (v.getD 0)

/-- Fill a nullable object cell with the number 0: `fillna(0)` inserts the
integer `0` into an object column, not an empty string. -/
def fillV (v : Option Value) : Option Value := some (v.getD (Value.num 0))

/-- The `df.fillna(0)` step, transform.py line 43, applied to one row: every
remaining missing cell becomes 0. (The timestamp columns cannot be missing
here: rows with NaT were dropped by the filter on line 23.) -/
def fillna0 (t : TranTrip) : TranTrip :=
  { VendorID := fillQ t.VendorID
    tpep_pickup_datetime := fillZ t.tpep_pickup_datetime
    tpep_dropoff_datetime := fillZ t.tpep_dropoff_datetime
    passenger_count := fillQ t.passenger_count
    trip_distance := fillQ t.trip_distance
    RatecodeID := fillQ t.RatecodeID
    store_and_fwd_flag := fillV t.store_and_fwd_flag
    PULocationID := fillQ t.PULocationID
    DOLocationID := fillQ t.DOLocationID
    payment_type := fillQ t.payment_type
    fare_amount := fillQ t.fare_amount
    extra := fillQ t.extra
    mta_tax := fillQ t.mta_tax
    tip_amount := fillQ t.tip_amount
    tolls_amount := fillQ t.tolls_amount
    improvement_surcharge := fillQ t.improvement_surcharge
    total_amount := fillQ t.total_amount
    congestion_surcharge := fillQ t.congestion_surcharge
    trip_duration_minutes := fillZ t.trip_duration_minutes
    cost_per_mile := fillQ t.cost_per_mile
    pickup_hour := fillZ t.pickup_hour
    pickup_date := fillZ t.pickup_date }

/-- The trip transformer, `transform_trip_data` of transform.py: drop rows
with pickup after dropoff (line 23), drop rows with non-positive fare or
distance (line 27), add the derived columns (lines 30-40), fill remaining
missing values with 0 (line 43). The row order of survivors is preserved
(pandas boolean-mask filtering is stable). -/
def transform_trip_data (df : List RawTrip) : List TranTrip :=
  let df1 := df.filter fun r => optLe r.tpep_pickup_datetime r.tpep_dropoff_datetime
  let df2 := df1.filter fun r => optPos r.fare_amount && optPos r.trip_distance
  (df2.map addDerived).map fillna0

/-- A raw zone row as read from the zone lookup CSV (field names are the raw
column names). -/
structure RawZone where
  LocationID : Option ℚ
  Borough : Option String
  Zone : Option String
  service_zone : Option String
  deriving DecidableEq, Repr, Inhabited

/-- A zone row after the column rename of `transform_zone_data`. -/
structure ZoneRecord where
  location_id : Option ℚ
  borough : Option String
  zone_name : Option String
  service_zone : Option String
  deriving DecidableEq, Repr, Inhabited

/-- The column rename of transform.py lines 57-64 applied to one row:
LocationID to location_id, Borough to borough, Zone to zone_name,
service_zone to service_zone (already correct). Cell values are untouched. -/
def renameZone (z : RawZone) : ZoneRecord :=
  { location_id := z.LocationID
    borough := z.Borough
    zone_name := z.Zone
    service_zone := z.service_zone }

/-- The zone transformer, `transform_zone_data` of transform.py: copies the
frame and renames the four columns; no filtering, no validation. -/
def transform_zone_data (df : List RawZone) : List ZoneRecord :=
  df.map renameZone

/-- Whether a transformed trip row has a missing value in any of its 22
columns. -/
def rowHasNull (t : TranTrip) : Bool :=
  t.VendorID.isNone || t.tpep_pickup_datetime.isNone ||
  t.tpep_dropoff_datetime.isNone || t.passenger_count.isNone ||
  t.trip_distance.isNone || t.RatecodeID.isNone ||
  t.store_and_fwd_flag.isNone || t.PULocationID.isNone ||
  t.DOLocationID.isNone || t.payment_type.isNone ||
  t.fare_amount.isNone || t.extra.isNone || t.mta_tax.isNone ||
  t.tip_amount.isNone || t.tolls_amount.isNone ||
  t.improvement_surcharge.isNone || t.total_amount.isNone ||
  t.congestion_surcharge.isNone || t.trip_duration_minutes.isNone ||
  t.cost_per_mile.isNone || t.pickup_hour.isNone || t.pickup_date.isNone

/-- The validator, `validate_data` of transform.py lines 71-84: it collects
an issue when the frame is empty and returns whether the issue list is
empty. The null check on line 80 only prints the per-column null counts; it
appends nothing to `issues`, so nulls never affect the returned boolean. -/
def validate_data (df : List TranTrip) : Bool :=
  let issues : List String := if df.isEmpty then ["Dataset is empty"] else []
  let _nullDiagnostic : Bool := df.any rowHasNull
  issues.length == 0

/-- The batching loop of `load_trips`, load.py lines 95-98: starting at the
head, repeatedly slice off `b` rows (`df.iloc[i : i + batch_size]` with `i`
advancing by `batch_size`) and emit the slice as one bulk write. The extra
fuel argument only bounds the recursion: every iteration with positive `b`
consumes at least one row, so fuel `df.length` reproduces the source loop
exactly. -/
def batchLoop {α : Type} (b : ℕ) : ℕ → List α → List (List α)
  | _, [] => []
  | 0, _ => []
  | fuel + 1, df => df.take b :: batchLoop b fuel (df.drop b)

/-- The batch loader `load_trips` of load.py, as the list of bulk writes it
issues, in order. (Line 92 drops a `trip_id` column before writing; the
transformed frame has no such column, so the column selection is the
identity and is not modelled.) A `batch_size` of 0 is outside the source's
domain: `range` with step 0 raises. -/
def load_trips (df : List TranTrip) (batch_size : ℕ := 10000) :
    List (List TranTrip) :=
  if batch_size = 0 then [] else batchLoop batch_size df.length df

/-- One run of the write loop of `load_trips` in which the store can reject
a write: `ok i` tells whether the i-th write (0-based, counting from `i0`)
succeeds. Returns the batches attempted (each handed to `to_sql` exactly
once, in order), the batches committed, and whether the loop ran to
completion; a failed write raises out of the loop, so nothing after it is
attempted and nothing is rolled back or retried. -/
def writeBatchesFrom {α : Type} (ok : ℕ → Bool) (i0 : ℕ) :
    List α → List α × List α × Bool
  | [] => ([], [], true)
  | x :: xs =>
    if ok i0 then
      let r := writeBatchesFrom ok (i0 + 1) xs
      (x :: r.1, x :: r.2.1, r.2.2)
    else ([x], [], false)

/-- The effectful view of `load_trips`: its batches are written in order by
the loop of load.py lines 95-98, where `ok` abstracts whether the store
accepts the k-th `to_sql` call. -/
def load_trips_run (df : List TranTrip) (batch_size : ℕ) (ok : ℕ → Bool) :
    List (List TranTrip) × List (List TranTrip) × Bool :=
  writeBatchesFrom ok 0 (load_trips df batch_size)

/-! ## A heap model of the pandas frames

Whether `transform_trip_data` mutates its argument is a statement about
Python objects, not about the value it returns, so the two transformers are
also embedded a second time over an explicit heap of frames: a frame is a
list of untyped rows (column-name/value pairs), the heap is a list of
frames, and every pandas operation of the source is classified as either
allocating a fresh frame (`copy`, boolean-mask filtering, `fillna`,
`rename`) or assigning a column in place (`df[col] = ...`). The transformers
start by copying (transform.py lines 15 and 54), so all in-place writes hit
the fresh frame. -/

/-- An untyped pandas cell for the heap model. -/
inductive PVal where
  | num (q : ℚ)
  | str (s : String)
  | ts (t : Int)
  | null
  deriving DecidableEq, Repr

/-- An untyped row: column-name/value pairs. -/
abbrev PRow := List (String × PVal)

/-- An untyped frame. -/
abbrev Frame := List PRow

/-- The heap of live frames; a frame is named by its index. -/
abbrev Heap := List Frame

/-- Value of column `c` in row `r` (missing column reads as null). -/
def lookupCol (r : PRow) (c : String) : PVal :=
  (((r.find? fun p => p.1 == c).map Prod.snd).getD PVal.null)

/-- Assign column `c` of one row to `f r` (replacing the column if present,
appending it otherwise), the row-level effect of `df[c] = ...`. -/
def setColRow (c : String) (f : PRow → PVal) (r : PRow) : PRow :=
  if r.any fun p => p.1 == c then
    r.map fun p => if p.1 == c then (p.1, f r) else p
  else r ++ [(c, f r)]

/-- In-place column assignment on a whole frame. -/
def setCol (fr : Frame) (c : String) (f : PRow → PVal) : Frame :=
  fr.map (setColRow c f)

/-- `df.copy()`: allocate a fresh frame holding the same rows; the result
names the new frame. -/
def pdCopy (h : Heap) (i : ℕ) : Heap × ℕ :=
  (h ++ [h.getD i []], h.length)

/-- `df[c] = ...`: mutate frame `i` in place; the frame keeps its name. -/
def pdSetCol (h : Heap) (i : ℕ) (c : String) (f : PRow → PVal) : Heap × ℕ :=
  (h.set i (setCol (h.getD i []) c f), i)

/-- Boolean-mask selection `df[mask]`: allocate a fresh filtered frame. -/
def pdFilter (h : Heap) (i : ℕ) (p : PRow → Bool) : Heap × ℕ :=
  (h ++ [(h.getD i []).filter p], h.length)

/-- A row-wise frame-producing operation (`fillna`, `rename(columns=...)`):
allocate a fresh mapped frame. -/
def pdMap (h : Heap) (i : ℕ) (g : PRow → PRow) : Heap × ℕ :=
  (h ++ [(h.getD i []).map g], h.length)

/-- Untyped `pd.to_datetime` on one cell: a `ts` cell stands for an already
parsed timestamp and passes through; NaN becomes NaT (string parsing, which
raises on failure, is outside the model). -/
def toDatetime : PVal → PVal
  | .ts t => .ts t
  | _ => .null

/-- Untyped timestamp comparison; false when either side is not a
timestamp. -/
def pvLe : PVal → PVal → Bool
  | .ts a, .ts b => a ≤ b
  | _, _ => false

/-- Untyped `> 0`; false when the cell is not numeric. -/
def pvPos : PVal → Bool
  | .num q => 0 < q
  | _ => false

/-- Untyped trip-duration cell computed from a row. -/
def pvDuration (r : PRow) : PVal :=
  match lookupCol r "tpep_pickup_datetime", lookupCol r "tpep_dropoff_datetime" with
  | .ts p, .ts d => .num ((durationMinutes p d : ℤ) : ℚ)
  | _, _ => .null

/-- Untyped cost-per-mile cell computed from a row. -/
def pvCostPerMile (r : PRow) : PVal :=
  match lookupCol r "fare_amount", lookupCol r "trip_distance" with
  | .num f, .num q => .num (round2 (f / q))
  | _, _ => .null

/-- Untyped pickup-hour cell computed from a row. -/
def pvPickupHour (r : PRow) : PVal :=
  match lookupCol r "tpep_pickup_datetime" with
  | .ts p => .num ((hourOf p : ℤ) : ℚ)
  | _ => .null

/-- Untyped pickup-date cell computed from a row. -/
def pvPickupDate (r : PRow) : PVal :=
  match lookupCol r "tpep_pickup_datetime" with
  | .ts p => .num ((dateOf p : ℤ) : ℚ)
  | _ => .null

/-- The `fillna(0)` step on an untyped row. -/
def fillRow0 (r : PRow) : PRow :=
  r.map fun p => if p.2 = PVal.null then (p.1, PVal.num 0) else p

/-- The heap-level embedding of `transform_trip_data`, statement by
statement: copy the argument frame, parse the two datetime columns in place
on the copy, build the two filtered frames, assign the four derived columns
in place on the last of them, and build the `fillna` frame. Returns the
final heap and the name of the result frame. -/
def transform_trip_data_heap (h : Heap) (i : ℕ) : Heap × ℕ :=
  let s := pdCopy h i
  let s := pdSetCol s.1 s.2 "tpep_pickup_datetime"
    fun r => toDatetime (lookupCol r "tpep_pickup_datetime")
  let s := pdSetCol s.1 s.2 "tpep_dropoff_datetime"
    fun r => toDatetime (lookupCol r "tpep_dropoff_datetime")
  let s := pdFilter s.1 s.2
    fun r => pvLe (lookupCol r "tpep_pickup_datetime")
      (lookupCol r "tpep_dropoff_datetime")
  let s := pdFilter s.1 s.2
    fun r => pvPos (lookupCol r "fare_amount") && pvPos (lookupCol r "trip_distance")
  let s := pdSetCol s.1 s.2 "trip_duration_minutes" pvDuration
  let s := pdSetCol s.1 s.2 "cost_per_mile" pvCostPerMile
  let s := pdSetCol s.1 s.2 "pickup_hour" pvPickupHour
  let s := pdSetCol s.1 s.2 "pickup_date" pvPickupDate
  pdMap s.1 s.2 fillRow0

/-- The rename map of transform.py lines 57-64 on a column name. -/
def renameZoneCol (c : String) : String :=
  if c = "LocationID" then "location_id"
  else if c = "Borough" then "borough"
  else if c = "Zone" then "zone_name"
  else if c = "service_zone" then "service_zone"
  else c

/-- The heap-level embedding of `transform_zone_data`: copy the argument
frame, then build the renamed frame (`DataFrame.rename` returns a new
frame). -/
def transform_zone_data_heap (h : Heap) (i : ℕ) : Heap × ℕ :=
  let s := pdCopy h i
  pdMap s.1 s.2 fun r => r.map fun p => (renameZoneCol p.1, p.2)

/-! ## Sample data

A concrete valid row patterned on the repository's own test fixture
(tests/test_pipeline.py): pickup at second 2800 (00:46:40), dropoff at
second 3200 (00:53:20) of the epoch day, fare 7, distance 2 miles. -/

/-- A valid raw trip row. -/
def rSample : RawTrip :=
  { VendorID := some 1
    tpep_pickup_datetime := some 2800
    tpep_dropoff_datetime := some 3200
    passenger_count := some 1
    trip_distance := some 2
    RatecodeID := some 1
    store_and_fwd_flag := some (Value.str "N")
    PULocationID := some 151
    DOLocationID := some 239
    payment_type := some 1
    fare_amount := some 7
    extra := some 1
    mta_tax := some 1
    tip_amount := some 2
    tolls_amount := some 0
    improvement_surcharge := some 1
    total_amount := some 11
    congestion_surcharge := some 0 }

/-- A raw trip row whose string-typed flag column is missing. -/
def rNullFlag : RawTrip := { rSample with store_and_fwd_flag := none }

/-- A raw trip row with positive fare 1 and positive distance 1000, whose
cost per mile (0.001) rounds to 0.00. -/
def rCheap : RawTrip :=
  { rSample with fare_amount := some 1, trip_distance := some 1000 }

/-- The transformed image of `rSample`. -/
def tSample : TranTrip := fillna0 (addDerived rSample)

/-- The transformed image of `rNullFlag`. -/
def tNullFlag : TranTrip := fillna0 (addDerived rNullFlag)

/-- The transformed image of `rCheap`. -/
def tCheap : TranTrip := fillna0 (addDerived rCheap)

/-! ## Helper lemmas -/

theorem optLe_eq_true_iff {a b : Option Int} :
    optLe a b = true ↔ ∃ p d, a = some p ∧ b = some d ∧ p ≤ d := by
  cases a <;> cases b <;> simp [optLe]

theorem optPos_eq_true_iff {v : Option ℚ} :
    optPos v = true ↔ ∃ q, v = some q ∧ 0 < q := by
  cases v <;> simp [optPos]

/-- Membership in the transformer's output, unfolded to the surviving source
row. -/
theorem mem_transform_trip_iff {df : List RawTrip} {t : TranTrip} :
    t ∈ transform_trip_data df ↔
      ∃ s, s ∈ df ∧
        optLe s.tpep_pickup_datetime s.tpep_dropoff_datetime = true ∧
        (optPos s.fare_amount && optPos s.trip_distance) = true ∧
        t = fillna0 (addDerived s) := by
  simp only [transform_trip_data, List.mem_map, List.mem_filter]
  constructor
  · rintro ⟨u, ⟨s, ⟨⟨hs, h1⟩, h2⟩, rfl⟩, rfl⟩
    exact ⟨s, hs, h1, h2, rfl⟩
  · rintro ⟨s, hs, h1, h2, rfl⟩
    exact ⟨addDerived s, ⟨s, ⟨⟨hs, h1⟩, h2⟩, rfl⟩, rfl⟩

/-- Truncating division by 60 agrees with the rational floor on a
non-negative number of seconds. -/
theorem tdiv_sixty_eq_floor {a : ℤ} (ha : 0 ≤ a) :
    a.tdiv 60 = ⌊(a : ℚ) / 60⌋ := by
  rw [Int.tdiv_eq_ediv ha (by norm_num)]
  rw [show (60 : ℚ) = ((60 : ℕ) : ℚ) by norm_num]
  rw [Rat.floor_intCast_div_natCast]
  norm_num

theorem roundHalfEven_nonneg {q : ℚ} (hq : 0 ≤ q) : 0 ≤ roundHalfEven q := by
  have h0 : (0 : ℤ) ≤ ⌊q⌋ := Int.floor_nonneg.mpr hq
  unfold roundHalfEven
  split_ifs <;> omega

theorem roundHalfEven_eq_zero {q : ℚ} (h0 : 0 ≤ q) (h1 : q < 1 / 2) :
    roundHalfEven q = 0 := by
  have hf : ⌊q⌋ = 0 :=
    Int.floor_eq_zero_iff.mpr (Set.mem_Ico.mpr ⟨h0, by linarith⟩)
  rw [roundHalfEven, hf]
  rw [if_pos (by push_cast; linarith)]

theorem round2_nonneg {q : ℚ} (hq : 0 ≤ q) : 0 ≤ round2 q := by
  have h := roundHalfEven_nonneg (q := q * 100) (by positivity)
  unfold round2
  have h100 : (0 : ℚ) < 100 := by norm_num
  exact div_nonneg (by exact_mod_cast h) (le_of_lt h100)

theorem round2_eq_zero {q : ℚ} (h0 : 0 ≤ q) (h1 : q < 1 / 200) :
    round2 q = 0 := by
  unfold round2
  rw [roundHalfEven_eq_zero (by positivity) (by linarith)]
  norm_num

theorem sample_mem : tSample ∈ transform_trip_data [rSample] := by
  rw [show transform_trip_data [rSample] = [tSample] from rfl]
  exact List.mem_singleton.mpr rfl

theorem cheap_mem : tCheap ∈ transform_trip_data [rCheap] := by
  rw [show transform_trip_data [rCheap] = [tCheap] from rfl]
  exact List.mem_singleton.mpr rfl

/-- Ceiling-division bookkeeping: one batch of size `b` taken off a
non-empty collection of `n` rows accounts for one of the `ceil(n / b)`
writes. -/
theorem ceilDiv_step {n b : ℕ} (hb : 0 < b) (hn : 0 < n) :
    (n - b + b - 1) / b + 1 = (n + b - 1) / b := by
  have h2 : n + b - 1 = n - 1 + b := by omega
  rw [h2, Nat.add_div_right _ hb]
  rcases le_or_lt n b with h | h
  · have h1 : n - b + b - 1 = b - 1 := by omega
    rw [h1, Nat.div_eq_of_lt (by omega), Nat.div_eq_of_lt (by omega)]
  · have h1 : n - b + b - 1 = n - 1 := by omega
    rw [h1]

theorem batchLoop_length {α : Type} {b : ℕ} (hb : 0 < b) :
    ∀ (fuel : ℕ) (df : List α), df.length ≤ fuel →
      (batchLoop b fuel df).length = (df.length + b - 1) / b := by
  intro fuel
  induction fuel with
  | zero =>
    intro df hdf
    obtain rfl : df = [] := List.eq_nil_of_length_eq_zero (Nat.le_zero.mp hdf)
    simp [batchLoop, Nat.div_eq_of_lt (show b - 1 < b by omega)]
  | succ fuel ih =>
    intro df hdf
    cases df with
    | nil => simp [batchLoop, Nat.div_eq_of_lt (show b - 1 < b by omega)]
    | cons x xs =>
      have hlen : ((x :: xs).drop b).length ≤ fuel := by
        simp only [List.length_drop, List.length_cons]
        simp only [List.length_cons] at hdf
        omega
      simp only [batchLoop, List.length_cons]
      rw [ih _ hlen]
      simp only [List.length_drop, List.length_cons]
      exact ceilDiv_step hb (by omega)

theorem batchLoop_getD {α : Type} {b : ℕ} (hb : 0 < b) :
    ∀ (fuel : ℕ) (df : List α) (i : ℕ), df.length ≤ fuel →
      i < (batchLoop b fuel df).length →
      (batchLoop b fuel df).getD i [] = (df.drop (i * b)).take b := by
  intro fuel
  induction fuel with
  | zero =>
    intro df i hdf hi
    obtain rfl : df = [] := List.eq_nil_of_length_eq_zero (Nat.le_zero.mp hdf)
    simp [batchLoop] at hi
  | succ fuel ih =>
    intro df i hdf hi
    cases df with
    | nil => simp [batchLoop] at hi
    | cons x xs =>
      cases i with
      | zero => simp [batchLoop]
      | succ j =>
        have hlen : ((x :: xs).drop b).length ≤ fuel := by
          simp only [List.length_drop, List.length_cons]
          simp only [List.length_cons] at hdf
          omega
        have hj : j < (batchLoop b fuel ((x :: xs).drop b)).length := by
          simp only [batchLoop, List.length_cons] at hi
          omega
        simp only [batchLoop, List.getD_cons_succ]
        rw [ih _ j hlen hj, List.drop_drop, Nat.succ_mul, Nat.add_comm (j * b) b]

/-- Behaviour of the write loop when the first rejected write is the k-th
one: the first k writes succeed and are committed, the k-th is attempted and
fails, and the loop stops there. -/
theorem writeBatchesFrom_fail {α : Type} (ok : ℕ → Bool) :
    ∀ (l : List α) (i0 k : ℕ), k < l.length →
      (∀ j, j < k → ok (i0 + j) = true) → ok (i0 + k) = false →
      writeBatchesFrom ok i0 l = (l.take (k + 1), l.take k, false) := by
  intro l
  induction l with
  | nil => intro i0 k hk _ _; simp at hk
  | cons x xs ih =>
    intro i0 k hk hok hfail
    cases k with
    | zero =>
      have h0 : ok i0 = false := by simpa using hfail
      simp [writeBatchesFrom, h0]
    | succ k =>
      have h0 : ok i0 = true := by simpa using hok 0 (Nat.succ_pos k)
      have hok' : ∀ j, j < k → ok (i0 + 1 + j) = true := by
        intro j hj
        rw [show i0 + 1 + j = i0 + (j + 1) by omega]
        exact hok (j + 1) (by omega)
      have hfail' : ok (i0 + 1 + k) = false := by
        rw [show i0 + 1 + k = i0 + (k + 1) by omega]
        exact hfail
      have hk' : k < xs.length := by simpa using hk
      simp only [writeBatchesFrom, h0, if_true]
      rw [ih (i0 + 1) k hk' hok' hfail']
      simp [List.take_succ_cons]

/-- All frames that already existed in `h₀` are intact in the state `s`, and
the frame `s` names was allocated after them. -/
def UntouchedFrom (h₀ : Heap) (s : Heap × ℕ) : Prop :=
  h₀.length ≤ s.1.length ∧ h₀.length ≤ s.2 ∧
    ∀ k, k < h₀.length → s.1[k]? = h₀[k]?

theorem untouchedFrom_pdCopy (h₀ : Heap) (i : ℕ) :
    UntouchedFrom h₀ (pdCopy h₀ i) := by
  refine ⟨by simp [pdCopy], by simp [pdCopy], ?_⟩
  intro k hk
  simp [pdCopy, List.getElem?_append, hk]

theorem untouchedFrom_pdSetCol {h₀ : Heap} {s : Heap × ℕ}
    (hs : UntouchedFrom h₀ s) (c : String) (f : PRow → PVal) :
    UntouchedFrom h₀ (pdSetCol s.1 s.2 c f) := by
  obtain ⟨hl, hi, hk⟩ := hs
  refine ⟨by simpa [pdSetCol] using hl, by simpa [pdSetCol] using hi, ?_⟩
  intro k hkn
  have hne : s.2 ≠ k := by omega
  rw [show (pdSetCol s.1 s.2 c f).1 = s.1.set s.2 (setCol (s.1.getD s.2 []) c f) from rfl]
  rw [List.getElem?_set_ne hne]
  exact hk k hkn

theorem untouchedFrom_pdFilter {h₀ : Heap} {s : Heap × ℕ}
    (hs : UntouchedFrom h₀ s) (p : PRow → Bool) :
    UntouchedFrom h₀ (pdFilter s.1 s.2 p) := by
  obtain ⟨hl, _hi, hk⟩ := hs
  refine ⟨by simp [pdFilter]; omega, by simpa [pdFilter] using hl, ?_⟩
  intro k hkn
  have hklt : k < s.1.length := by omega
  simp only [pdFilter, List.getElem?_append, if_pos hklt]
  exact hk k hkn

theorem untouchedFrom_pdMap {h₀ : Heap} {s : Heap × ℕ}
    (hs : UntouchedFrom h₀ s) (g : PRow → PRow) :
    UntouchedFrom h₀ (pdMap s.1 s.2 g) := by
  obtain ⟨hl, _hi, hk⟩ := hs
  refine ⟨by simp [pdMap]; omega, by simpa [pdMap] using hl, ?_⟩
  intro k hkn
  have hklt : k < s.1.length := by omega
  simp only [pdMap, List.getElem?_append, if_pos hklt]
  exact hk k hkn

/-! ## The claims -/

/-- C1: for every input collection, every row in the output of
`transform_trip_data` satisfies pickup timestamp <= dropoff timestamp,
fare_amount > 0 and trip_distance > 0. -/
theorem transform_trip_survivors_valid (df : List RawTrip) (t : TranTrip)
    (ht : t ∈ transform_trip_data df) :
    (∃ p d, t.tpep_pickup_datetime = some p ∧
      t.tpep_dropoff_datetime = some d ∧ p ≤ d) ∧
    (∃ f, t.fare_amount = some f ∧ 0 < f) ∧
    (∃ q, t.trip_distance = some q ∧ 0 < q) := by
  obtain ⟨s, _hs, h1, h2, rfl⟩ := mem_transform_trip_iff.mp ht
  obtain ⟨p, d, hp, hd, hpd⟩ := optLe_eq_true_iff.mp h1
  rw [Bool.and_eq_true] at h2
  obtain ⟨f, hf, hf0⟩ := optPos_eq_true_iff.mp h2.1
  obtain ⟨q, hq, hq0⟩ := optPos_eq_true_iff.mp h2.2
  refine ⟨⟨p, d, ?_, ?_, hpd⟩, ⟨f, ?_, hf0⟩, ⟨q, ?_, hq0⟩⟩ <;>
    simp [fillna0, addDerived, fillQ, fillZ, hp, hd, hf, hq]

/-- Witness for C1 at the concrete row `rSample`. -/
theorem transform_trip_survivors_valid_witness :
    tSample ∈ transform_trip_data [rSample] ∧
    ((∃ p d, tSample.tpep_pickup_datetime = some p ∧
       tSample.tpep_dropoff_datetime = some d ∧ p ≤ d) ∧
     (∃ f, tSample.fare_amount = some f ∧ 0 < f) ∧
     (∃ q, tSample.trip_distance = some q ∧ 0 < q)) :=
  ⟨sample_mem, transform_trip_survivors_valid [rSample] tSample sample_mem⟩

/-- C2: for every surviving row, `trip_duration_minutes` is exactly the
floor of (dropoff - pickup) seconds / 60; the code truncates toward zero
(`Int.tdiv`), which coincides with the floor because survivors have
pickup <= dropoff. -/
theorem trip_duration_exact (df : List RawTrip) (t : TranTrip)
    (ht : t ∈ transform_trip_data df) :
    ∃ p d, t.tpep_pickup_datetime = some p ∧
      t.tpep_dropoff_datetime = some d ∧
      t.trip_duration_minutes = some ((d - p).tdiv 60) ∧
      (d - p).tdiv 60 = ⌊((d - p : ℤ) : ℚ) / 60⌋ := by
  obtain ⟨s, _hs, h1, _h2, rfl⟩ := mem_transform_trip_iff.mp ht
  obtain ⟨p, d, hp, hd, hpd⟩ := optLe_eq_true_iff.mp h1
  refine ⟨p, d, ?_, ?_, ?_, tdiv_sixty_eq_floor (by omega)⟩ <;>
    simp [fillna0, addDerived, fillZ, cellMap2, durationMinutes, hp, hd]

/-- Witness for C2 at the concrete row `rSample` (400 seconds, 6 minutes). -/
theorem trip_duration_exact_witness :
    tSample ∈ transform_trip_data [rSample] ∧
    (∃ p d, tSample.tpep_pickup_datetime = some p ∧
      tSample.tpep_dropoff_datetime = some d ∧
      tSample.trip_duration_minutes = some ((d - p).tdiv 60) ∧
      (d - p).tdiv 60 = ⌊((d - p : ℤ) : ℚ) / 60⌋) :=
  ⟨sample_mem, trip_duration_exact [rSample] tSample sample_mem⟩

/-- C3: for every surviving row, `cost_per_mile` equals
round(fare_amount / trip_distance, 2), and the division is well defined
because the row's distance is positive. -/
theorem cost_per_mile_formula (df : List RawTrip) (t : TranTrip)
    (ht : t ∈ transform_trip_data df) :
    ∃ f q, t.fare_amount = some f ∧ t.trip_distance = some q ∧
      0 < q ∧ q ≠ 0 ∧ t.cost_per_mile = some (round2 (f / q)) := by
  obtain ⟨s, _hs, _h1, h2, rfl⟩ := mem_transform_trip_iff.mp ht
  rw [Bool.and_eq_true] at h2
  obtain ⟨f, hf, hf0⟩ := optPos_eq_true_iff.mp h2.1
  obtain ⟨q, hq, hq0⟩ := optPos_eq_true_iff.mp h2.2
  refine ⟨f, q, ?_, ?_, hq0, ne_of_gt hq0, ?_⟩ <;>
    simp [fillna0, addDerived, fillQ, cellMap2, hf, hq]

/-- Witness for C3 at the concrete row `rSample` (fare 7, distance 2). -/
theorem cost_per_mile_formula_witness :
    tSample ∈ transform_trip_data [rSample] ∧
    (∃ f q, tSample.fare_amount = some f ∧ tSample.trip_distance = some q ∧
      0 < q ∧ q ≠ 0 ∧ tSample.cost_per_mile = some (round2 (f / q))) :=
  ⟨sample_mem, cost_per_mile_formula [rSample] tSample sample_mem⟩

/-- The flag column of every output row, used to exhibit what `fillna(0)`
puts into the one string-typed column. -/
def flagsOf (l : List TranTrip) : List (Option Value) :=
  l.map fun t => t.store_and_fwd_flag

/-- C4 counterexample: on a surviving row whose string-typed
`store_and_fwd_flag` is missing, the output holds the number 0 in that
field, not the empty string, so the replacement is not type-appropriate. -/
theorem fillna_not_type_appropriate :
    flagsOf (transform_trip_data [rNullFlag]) = [some (Value.num 0)] ∧
    flagsOf (transform_trip_data [rNullFlag]) ≠ [some (Value.str "")] := by
  constructor
  · rfl
  · rw [show flagsOf (transform_trip_data [rNullFlag]) = [some (Value.num 0)] from rfl]
    simp

/-- C4 (amended): in the output of `transform_trip_data` no field of any
row is missing; every remaining missing value is replaced with the number
zero in every column, including the string-typed `store_and_fwd_flag`
column, which receives the number 0 rather than the empty string. -/
theorem fillna_fills_all_nulls_with_zero :
    (∀ (df : List RawTrip), ∀ t ∈ transform_trip_data df,
      rowHasNull t = false) ∧
    (∀ u : TranTrip, u.store_and_fwd_flag = none →
      (fillna0 u).store_and_fwd_flag = some (Value.num 0)) := by
  constructor
  · intro df t ht
    obtain ⟨s, _hs, _h1, _h2, rfl⟩ := mem_transform_trip_iff.mp ht
    simp [rowHasNull, fillna0, fillQ, fillZ, fillV]
  · intro u hu
    simp [fillna0, fillV, hu]

/-- C5: `validate_data` returns false exactly when the collection is empty;
a non-empty collection passes no matter what its rows hold (in particular
regardless of nulls), because the null check only prints. -/
theorem validate_data_empty_check_only (df : List TranTrip) :
    validate_data df = !df.isEmpty := by
  cases df <;> simp [validate_data]

/-- A concrete three-row trip collection for the loader witnesses. -/
def dfW : List TranTrip := [tSample, tNullFlag, tCheap]

/-- C6: with any batch size b >= 1, `load_trips` issues exactly
ceil(N / b) writes; the i-th write is rows [i*b, min((i+1)*b, N)) of the
input, in order; every write except possibly the last holds exactly b rows
(so with b = 1 there are N one-row writes); the default batch size is
10000. -/
theorem load_trips_batching (df : List TranTrip) (b : ℕ) (hb : 1 ≤ b) :
    (load_trips df b).length = (df.length + b - 1) / b ∧
    (∀ i, i < (load_trips df b).length →
      (load_trips df b).getD i [] = (df.drop (i * b)).take b) ∧
    (∀ i, i + 1 < (load_trips df b).length →
      ((load_trips df b).getD i []).length = b) ∧
    load_trips df = load_trips df 10000 := by
  have hb0 : b ≠ 0 := by omega
  have hlen : (load_trips df b).length = (df.length + b - 1) / b := by
    simp only [load_trips, if_neg hb0]
    exact batchLoop_length (by omega) df.length df le_rfl
  have hget : ∀ i, i < (load_trips df b).length →
      (load_trips df b).getD i [] = (df.drop (i * b)).take b := by
    intro i hi
    simp only [load_trips, if_neg hb0] at hi ⊢
    exact batchLoop_getD (by omega) df.length df i le_rfl hi
  refine ⟨hlen, hget, ?_, rfl⟩
  intro i hi
  rw [hget i (by omega), List.length_take, List.length_drop]
  rw [hlen] at hi
  have h2 : i + 2 ≤ (df.length + b - 1) / b := by omega
  have h3 : (i + 2) * b ≤ df.length + b - 1 :=
    (Nat.le_div_iff_mul_le (by omega)).mp h2
  rw [show (i + 2) * b = i * b + 2 * b by ring] at h3
  generalize i * b = m at h3 ⊢
  omega

/-- Witness for C6: three rows, batch size 1, three one-row writes. -/
theorem load_trips_batching_witness :
    1 ≤ 1 ∧
    ((load_trips dfW 1).length = (dfW.length + 1 - 1) / 1 ∧
     (∀ i, i < (load_trips dfW 1).length →
       (load_trips dfW 1).getD i [] = (dfW.drop (i * 1)).take 1) ∧
     (∀ i, i + 1 < (load_trips dfW 1).length →
       ((load_trips dfW 1).getD i []).length = 1) ∧
     load_trips dfW = load_trips dfW 10000) :=
  ⟨le_rfl, load_trips_batching dfW 1 le_rfl⟩

/-- C7: if the write of batch k (0-based) fails, `load_trips` propagates
the error with batches 0..k-1 already written and committed, batch k
attempted exactly once, and no later batch attempted: no rollback of prior
batches and no retry of the failed one. -/
theorem load_trips_failure_semantics (df : List TranTrip) (b : ℕ)
    (ok : ℕ → Bool) (k : ℕ) (hk : k < (load_trips df b).length)
    (hbefore : ∀ j, j < k → ok j = true) (hfail : ok k = false) :
    load_trips_run df b ok =
      ((load_trips df b).take (k + 1), (load_trips df b).take k, false) := by
  unfold load_trips_run
  refine writeBatchesFrom_fail ok _ 0 k hk ?_ ?_
  · intro j hj
    simpa using hbefore j hj
  · simpa using hfail

/-- A store that accepts only the first write. -/
def okW : ℕ → Bool := fun n => n == 0

/-- Witness for C7: three one-row batches, the second write fails; exactly
the first batch is committed, the third is never attempted. -/
theorem load_trips_failure_semantics_witness :
    1 < (load_trips dfW 1).length ∧ (∀ j, j < 1 → okW j = true) ∧
    okW 1 = false ∧
    load_trips_run dfW 1 okW =
      ((load_trips dfW 1).take (1 + 1), (load_trips dfW 1).take 1, false) :=
  ⟨by decide, by decide, by decide,
    load_trips_failure_semantics dfW 1 okW 1 (by decide) (by decide) (by decide)⟩

/-- C8: `transform_zone_data` renames exactly the four columns
(LocationID to location_id, Borough to borough, Zone to zone_name,
service_zone to service_zone) and is the identity on the data: row count,
row order and every cell value are preserved, with no filtering. -/
theorem zone_transform_rename_only (df : List RawZone) (i : ℕ)
    (hi : i < df.length) :
    (transform_zone_data df).length = df.length ∧
    ((transform_zone_data df).getD i default).location_id =
      (df.getD i default).LocationID ∧
    ((transform_zone_data df).getD i default).borough =
      (df.getD i default).Borough ∧
    ((transform_zone_data df).getD i default).zone_name =
      (df.getD i default).Zone ∧
    ((transform_zone_data df).getD i default).service_zone =
      (df.getD i default).service_zone := by
  have hmap : (transform_zone_data df)[i]? = some (renameZone df[i]) := by
    simp [transform_zone_data, List.getElem?_eq_getElem hi]
  have hdf : df[i]? = some df[i] := List.getElem?_eq_getElem hi
  refine ⟨by simp [transform_zone_data], ?_, ?_, ?_, ?_⟩ <;>
    simp [List.getD_eq_getElem?_getD, hmap, hdf, renameZone]

/-- A concrete raw zone row. -/
def zSample : RawZone :=
  { LocationID := some 151
    Borough := some "Manhattan"
    Zone := some "Central Park"
    service_zone := some "Yellow Zone" }

/-- Witness for C8 at the concrete zone row `zSample`. -/
theorem zone_transform_rename_only_witness :
    0 < [zSample].length ∧
    ((transform_zone_data [zSample]).length = [zSample].length ∧
     ((transform_zone_data [zSample]).getD 0 default).location_id =
       ([zSample].getD 0 default).LocationID ∧
     ((transform_zone_data [zSample]).getD 0 default).borough =
       ([zSample].getD 0 default).Borough ∧
     ((transform_zone_data [zSample]).getD 0 default).zone_name =
       ([zSample].getD 0 default).Zone ∧
     ((transform_zone_data [zSample]).getD 0 default).service_zone =
       ([zSample].getD 0 default).service_zone) :=
  ⟨by decide, zone_transform_rename_only [zSample] 0 (by decide)⟩

/-- C9: neither transformer mutates its input: in the heap model, after
running `transform_trip_data_heap` or `transform_zone_data_heap` on any
frame of any heap, every frame that existed before the call — in particular
the input frame — is unchanged (both functions work on a copy; every
in-place column assignment hits a freshly allocated frame). -/
theorem transformers_do_not_mutate_input :
    (∀ (h : Heap) (i k : ℕ), k < h.length →
      ((transform_trip_data_heap h i).1)[k]? = h[k]?) ∧
    (∀ (h : Heap) (i k : ℕ), k < h.length →
      ((transform_zone_data_heap h i).1)[k]? = h[k]?) := by
  constructor
  · intro h i k hk
    have s1 := untouchedFrom_pdCopy h i
    have s2 := untouchedFrom_pdSetCol s1 "tpep_pickup_datetime"
      fun r => toDatetime (lookupCol r "tpep_pickup_datetime")
    have s3 := untouchedFrom_pdSetCol s2 "tpep_dropoff_datetime"
      fun r => toDatetime (lookupCol r "tpep_dropoff_datetime")
    have s4 := untouchedFrom_pdFilter s3
      fun r => pvLe (lookupCol r "tpep_pickup_datetime")
        (lookupCol r "tpep_dropoff_datetime")
    have s5 := untouchedFrom_pdFilter s4
      fun r => pvPos (lookupCol r "fare_amount") &&
        pvPos (lookupCol r "trip_distance")
    have s6 := untouchedFrom_pdSetCol s5 "trip_duration_minutes" pvDuration
    have s7 := untouchedFrom_pdSetCol s6 "cost_per_mile" pvCostPerMile
    have s8 := untouchedFrom_pdSetCol s7 "pickup_hour" pvPickupHour
    have s9 := untouchedFrom_pdSetCol s8 "pickup_date" pvPickupDate
    have s10 := untouchedFrom_pdMap s9 fillRow0
    exact s10.2.2 k hk
  · intro h i k hk
    have s1 := untouchedFrom_pdCopy h i
    have s2 := untouchedFrom_pdMap s1
      fun r => r.map fun p => (renameZoneCol p.1, p.2)
    exact s2.2.2 k hk

/-- C10: every output row's `cost_per_mile` is non-negative, but strict
positivity fails: rounding to two digits yields 0 whenever
fare_amount / trip_distance < 0.005, and a surviving row with positive fare
and positive distance can reach that (fare 1, distance 1000). -/
theorem cost_per_mile_nonneg_not_strict :
    (∀ (df : List RawTrip), ∀ t ∈ transform_trip_data df,
      ∃ c, t.cost_per_mile = some c ∧ 0 ≤ c) ∧
    (∀ (df : List RawTrip), ∀ t ∈ transform_trip_data df,
      ∀ f q c, t.fare_amount = some f → t.trip_distance = some q →
        t.cost_per_mile = some c → f / q < 1 / 200 → c = 0) ∧
    (tCheap ∈ transform_trip_data [rCheap] ∧
      tCheap.cost_per_mile = some 0 ∧
      tCheap.fare_amount = some 1 ∧ (0 : ℚ) < 1 ∧
      tCheap.trip_distance = some 1000 ∧ (0 : ℚ) < 1000) := by
  refine ⟨?_, ?_, cheap_mem, ?_, rfl, by norm_num, rfl, by norm_num⟩
  · intro df t ht
    obtain ⟨s, _hs, _h1, h2, rfl⟩ := mem_transform_trip_iff.mp ht
    rw [Bool.and_eq_true] at h2
    obtain ⟨f, hf, hf0⟩ := optPos_eq_true_iff.mp h2.1
    obtain ⟨q, hq, hq0⟩ := optPos_eq_true_iff.mp h2.2
    refine ⟨round2 (f / q), ?_, round2_nonneg (div_nonneg hf0.le hq0.le)⟩
    simp [fillna0, addDerived, fillQ, cellMap2, hf, hq]
  · intro df t ht f q c hf hq hc hlt
    obtain ⟨s, _hs, _h1, h2, rfl⟩ := mem_transform_trip_iff.mp ht
    rw [Bool.and_eq_true] at h2
    obtain ⟨f', hf', hf0⟩ := optPos_eq_true_iff.mp h2.1
    obtain ⟨q', hq', hq0⟩ := optPos_eq_true_iff.mp h2.2
    simp only [fillna0, addDerived, fillQ, cellMap2, hf', hq',
      Option.getD_some, Option.some.injEq] at hf hq hc
    subst hf hq hc
    exact round2_eq_zero (div_nonneg hf0.le hq0.le) hlt
  · rw [show tCheap.cost_per_mile = some (round2 (1 / 1000)) from rfl,
      round2_eq_zero (by norm_num) (by norm_num)]

end TaxiETL
